import Mathlib

/-!
Verification development for the notification_service consumer pipeline.

We shallowly embed the per-message processing pipeline of
`src/notification_service/consumer.py` (class `NotificationConsumer`), the
event dispatcher of `src/notification_service/processor.py`
(class `NotificationProcessor`) and the shared event schema of
`src/common/schemas/events.py`.

Modelling conventions:
* The Redis status store is an association list from keys to string values;
  a fresh write is prepended, and lookup returns the first binding, so a
  write shadows older bindings for the same key (matching overwriting SETEX).
* Store and broker failures are modelled by an `Env` oracle: whether the
  Redis client exists (`redisConnected`), whether the dedup GET raises
  (`getFails`), and — since each `_set_notification_status` call swallows
  its own exception independently — one flag per SETEX call site of the
  pipeline: `setPendingFails` for the `pending` write and `setFinalFails`
  for the `processed`/`failed` write.  The dispatcher invoked by the
  consumer is a parameter `dispatch`, since `_process_message` is written
  against an arbitrary `process_notification` that may raise; the faithful
  dispatcher of `processor.py` is `processNotificationD` below and never
  raises.
* Every observable action of one `_process_message` run is recorded, in
  execution order, in a trace: attempted store reads and writes (with a
  success flag, and for writes the previous value of the key and the TTL),
  entry into `process_notification` (`dispatched`), handler invocations and
  the unknown-type warning.
* `async with message.process()` acknowledges the message iff the body
  returns without an exception; the `acked` field records this.  The
  `result` field is `.ok ()` for a normal return and `.error e` when an
  exception propagates out of the pipeline body.
-/

/-- Python exceptions that can escape the embedded code. -/
inductive PyError where
  | decodeError
  | unboundLocalError
  | handlerError (msg : String)
  deriving DecidableEq, Repr

/-- `TaskEvent` of `src/common/schemas/events.py`, with identifiers kept as
their wire strings and `data` as an open string-keyed mapping.  Pydantic
validation guarantees `event_type` of a decoded event is one of the four
`EventType` values; we carry the type as its string value (the enum is a
`str` enum) and state that guarantee as a hypothesis where needed. -/
structure TaskEvent where
  event_id : String
  event_type : String
  task_id : String
  user_id : String
  data : List (String × String)
  deriving DecidableEq, Repr

/-- The four `EventType` enum values. -/
def eventTypeValues : List String :=
  ["task.created", "task.updated", "task.deleted", "task.status_changed"]

/-- The three `NotificationStatus` enum values. -/
def notificationStatusValues : List String := ["pending", "processed", "failed"]

/-- The Redis status store: key-value pairs, first binding wins. -/
abbrev Store := List (String × String)

/-- Redis GET on the modelled store. -/
def Store.getVal (s : Store) (k : String) : Option String :=
  (List.find? (fun p => p.1 == k) s).map Prod.snd

/-- Redis SETEX on the modelled store (TTL not tracked in the state; the TTL
passed to each write is recorded in the trace). -/
def Store.setVal (s : Store) (k v : String) : Store := (k, v) :: s

/-- Failure-mode oracle for one run of the pipeline.  Each SETEX call of
`_process_message` can raise independently of the other, so the run carries
one failure flag per call site: the `pending` write and the final
`processed`/`failed` write. -/
structure Env where
  redisConnected : Bool
  getFails : Bool
  setPendingFails : Bool
  setFinalFails : Bool
  deriving DecidableEq, Repr

/-- One observable action of the pipeline, in execution order. -/
inductive Act where
  | storeGet (key : String) (ok : Bool)
  | storeSet (key : String) (ttl : Nat) (value : String) (prev : Option String) (ok : Bool)
  | dispatched (event : TaskEvent)
  | handlerCall (name : String) (info : List String) (event : TaskEvent)
  | warnUnknownType (ty : String)
  deriving DecidableEq, Repr

/-- Whether an action is a (successful or failed) status-store write. -/
def Act.isStoreWrite : Act → Bool
  | .storeSet _ _ _ _ _ => true
  | _ => false

/-- Whether an action is a status-store read attempt. -/
def Act.isStoreRead : Act → Bool
  | .storeGet _ _ => true
  | _ => false

/-- Whether an action is a handler invocation. -/
def Act.isHandlerCall : Act → Bool
  | .handlerCall _ _ _ => true
  | _ => false

/-- The status-store key used by the consumer: `notification:` followed by
the event id. -/
def notificationKey (event_id : String) : String := "notification:" ++ event_id

/-- `NotificationConsumer._get_notification_status`: returns `none` when the
Redis client is absent; attempts a GET otherwise, and on a raised store
error logs and returns `none` (fail open).  The second component is the
trace of the attempt. -/
def getNotificationStatus (env : Env) (store : Store) (event_id : String) :
    Option String × List Act :=
  if !env.redisConnected then (none, [])
  else if env.getFails then (none, [.storeGet (notificationKey event_id) false])
  else (store.getVal (notificationKey event_id),
        [.storeGet (notificationKey event_id) true])

/-- `NotificationConsumer._set_notification_status`: returns without writing
when the Redis client is absent; attempts `SETEX key (86400 * 7) status`
otherwise, and on a raised store error logs and swallows it.  `fails` says
whether this particular SETEX call raises (each call fails independently).
Returns the store after the attempt and the trace of the attempt. -/
def setNotificationStatus (env : Env) (fails : Bool) (store : Store)
    (event_id status : String) : Store × List Act :=
  if !env.redisConnected then (store, [])
  else if fails then
    (store, [.storeSet (notificationKey event_id) (86400 * 7) status
              (store.getVal (notificationKey event_id)) false])
  else
    (store.setVal (notificationKey event_id) status,
     [.storeSet (notificationKey event_id) (86400 * 7) status
       (store.getVal (notificationKey event_id)) true])

/-- Python `dict.get(key, default)` on the event's `data` mapping. -/
def dictGet (d : List (String × String)) (k default : String) : String :=
  match List.find? (fun p => p.1 == k) d with
  | some p => p.2
  | none => default

/-- `NotificationProcessor._handle_task_created`: logs a notification built
from `data.get("title", "N/A")`; never raises. -/
def handleTaskCreated (e : TaskEvent) : Act :=
  .handlerCall "_handle_task_created" [dictGet e.data "title" "N/A"] e

/-- `NotificationProcessor._handle_task_updated`. -/
def handleTaskUpdated (e : TaskEvent) : Act :=
  .handlerCall "_handle_task_updated" [dictGet e.data "title" "N/A"] e

/-- `NotificationProcessor._handle_task_status_changed`: reads
`old_status` and `new_status` from `data` with default `"unknown"`;
never raises. -/
def handleTaskStatusChanged (e : TaskEvent) : Act :=
  .handlerCall "_handle_task_status_changed"
    [dictGet e.data "title" "N/A",
     dictGet e.data "old_status" "unknown",
     dictGet e.data "new_status" "unknown"] e

/-- `NotificationProcessor._handle_task_deleted`. -/
def handleTaskDeleted (e : TaskEvent) : Act :=
  .handlerCall "_handle_task_deleted" [dictGet e.data "title" "N/A"] e

/-- The `handler_map` of `NotificationProcessor.process_notification`, keyed
by the event type's string value (`EventType` is a `str` enum, so lookup by
string value matches Python's hashing of str-enum members). -/
def handlerMap : List (String × (TaskEvent → Act)) :=
  [("task.created", handleTaskCreated),
   ("task.updated", handleTaskUpdated),
   ("task.status_changed", handleTaskStatusChanged),
   ("task.deleted", handleTaskDeleted)]

/-- `NotificationProcessor.process_notification`: routes the event to the
handler registered for its type; for an unregistered type it logs a warning
and returns normally.  Returns the trace of the dispatch; the `Except` layer
records that the source dispatcher never raises. -/
def processNotificationD (e : TaskEvent) : Except PyError (List Act) :=
  match List.find? (fun p => p.1 == e.event_type) handlerMap with
  | some p => .ok [p.2 e]
  | none => .ok [.warnUnknownType e.event_type]

deriving instance DecidableEq for Except

/-- Whether a successful status-store write overwrites a `processed` value. -/
def Act.overwritesProcessed : Act → Bool
  | .storeSet _ _ _ (some prev) true => prev == "processed"
  | _ => false

/-- Whether a successful status-store write respects the status state
machine: `pending` may be written over anything except `processed`, and
`processed`/`failed` only over `pending`.  Failed write attempts and
non-write actions are unconstrained. -/
def Act.allowedWrite : Act → Bool
  | .storeSet _ _ v prev true =>
      (v == "pending" && prev != some "processed") ||
      ((v == "processed" || v == "failed") && prev == some "pending")
  | _ => true

/-- Whether an action writes the value `failed` to the status store. -/
def Act.isFailedWrite : Act → Bool
  | .storeSet _ _ v _ _ => v == "failed"
  | _ => false

/-- Every store write uses the given key, TTL 604800 seconds and one of the
three `NotificationStatus` values (vacuous for non-write actions). -/
def Act.writeWellFormed (k : String) : Act → Bool
  | .storeSet key ttl v _ _ =>
      key == k && ttl == 604800 &&
        (v == "pending" || v == "processed" || v == "failed")
  | _ => true

/-- Every store read uses the given key (vacuous for non-read actions). -/
def Act.readWellFormed (k : String) : Act → Bool
  | .storeGet key _ => key == k
  | _ => true

/-- Result of one `_process_message` run. -/
structure ProcResult where
  store : Store
  trace : List Act
  result : Except PyError Unit
  acked : Bool
  deriving DecidableEq, Repr

/-- `NotificationConsumer._process_message`, parametric in the dispatcher
invoked at the `await self.processor.process_notification(event)` call.
`decoded` is the outcome of `json.loads` plus `TaskEvent(**body)`; a decode
failure enters the `except` block with the local variable `event` unbound,
so evaluating `self.redis_client and event` raises `UnboundLocalError` when
the Redis client is truthy, and re-raises the original error otherwise.
On dispatch failure the `failed` status is written (best effort) and the
exception re-raised, so the message is not acknowledged. -/
def processMessage (dispatch : TaskEvent → Except PyError (List Act))
    (env : Env) (store : Store) (decoded : Except Unit TaskEvent) : ProcResult :=
  match decoded with
  | .error _ =>
      if env.redisConnected then
        { store := store, trace := [], result := .error .unboundLocalError, acked := false }
      else
        { store := store, trace := [], result := .error .decodeError, acked := false }
  | .ok event =>
      let g := getNotificationStatus env store event.event_id
      if g.1 == some "processed" then
        { store := store, trace := g.2, result := .ok (), acked := true }
      else
        let s1 := setNotificationStatus env env.setPendingFails store event.event_id "pending"
        match dispatch event with
        | .ok acts =>
            let s2 := setNotificationStatus env env.setFinalFails s1.1 event.event_id "processed"
            { store := s2.1
              trace := g.2 ++ s1.2 ++ [.dispatched event] ++ acts ++ s2.2
              result := .ok ()
              acked := true }
        | .error err =>
            let s2 :=
              if env.redisConnected then
                setNotificationStatus env env.setFinalFails s1.1 event.event_id "failed"
              else (s1.1, [])
            { store := s2.1
              trace := g.2 ++ s1.2 ++ [.dispatched event] ++ s2.2
              result := .error err
              acked := false }

/-- Which client handles are non-`None` when `NotificationConsumer.stop`
runs, and which teardown calls raise. -/
structure StopEnv where
  hasQueue : Bool
  hasChannel : Bool
  hasConnection : Bool
  hasRedis : Bool
  cancelRaises : Bool
  channelCloseRaises : Bool
  connectionCloseRaises : Bool
  redisCloseRaises : Bool
  deriving DecidableEq, Repr

/-- The four teardown calls of `NotificationConsumer.stop`. -/
inductive StopStep where
  | cancelQueue
  | closeChannel
  | closeConnection
  | closeRedis
  deriving DecidableEq, Repr

/-- One `if handle: await handle.op()` line of `stop`: skipped when the
handle is `None`; when attempted and the call raises, the exception
propagates immediately (there is no try/except around the steps), so the
remaining steps are not attempted. -/
def stopStep (has raises : Bool) (s : StopStep)
    (rest : List StopStep × Except Unit Unit) : List StopStep × Except Unit Unit :=
  if has then
    if raises then ([s], .error ()) else (s :: rest.1, rest.2)
  else rest

/-- `NotificationConsumer.stop`: cancel the queue consumption, close the
channel, close the connection, close the Redis client, each guarded only by
a `None` check.  Returns the list of attempted steps in execution order and
whether `stop` returned normally or an exception escaped. -/
def consumerStop (env : StopEnv) : List StopStep × Except Unit Unit :=
  stopStep env.hasQueue env.cancelRaises .cancelQueue
    (stopStep env.hasChannel env.channelCloseRaises .closeChannel
      (stopStep env.hasConnection env.connectionCloseRaises .closeConnection
        (stopStep env.hasRedis env.redisCloseRaises .closeRedis ([], .ok ()))))

/-- The sample event of the spec's first scenario. -/
def sampleEvent : TaskEvent :=
  { event_id := "E1"
    event_type := "task.created"
    task_id := "T1"
    user_id := "U1"
    data := [("title", "Buy milk")] }

/-- A fully healthy environment: Redis connected, no store failures. -/
def envOk : Env :=
  { redisConnected := true, getFails := false,
    setPendingFails := false, setFinalFails := false }

/-- Redis connected but the dedup GET raises (degraded read). -/
def envGetFails : Env :=
  { redisConnected := true, getFails := true,
    setPendingFails := false, setFinalFails := false }

/-- Redis connected but both SETEX calls raise (degraded writes). -/
def envSetFails : Env :=
  { redisConnected := true, getFails := false,
    setPendingFails := true, setFinalFails := true }

/-- Redis connected, the `pending` SETEX raises (swallowed) but the final
SETEX succeeds. -/
def envPendingFails : Env :=
  { redisConnected := true, getFails := false,
    setPendingFails := true, setFinalFails := false }

/-- A dispatcher that always raises, standing in for a failing handler. -/
def failingDispatch : TaskEvent → Except PyError (List Act) :=
  fun _ => .error (.handlerError "boom")

/-- A write shadows older bindings for its key. -/
theorem getVal_setVal_self (s : Store) (k v : String) :
    (s.setVal k v).getVal k = some v := by
  simp [Store.getVal, Store.setVal, List.find?_cons_of_pos]

/-- The fresh-event success path of `_process_message`: with Redis healthy
and no `processed` status recorded, the pipeline reads, writes `pending`,
dispatches, writes `processed` and acknowledges. -/
theorem processMessage_fresh_ok (dispatch : TaskEvent → Except PyError (List Act))
    (env : Env) (store : Store) (e : TaskEvent) (acts : List Act)
    (hconn : env.redisConnected = true) (hget : env.getFails = false)
    (hset1 : env.setPendingFails = false) (hset2 : env.setFinalFails = false)
    (hnew : store.getVal (notificationKey e.event_id) ≠ some "processed")
    (hdisp : dispatch e = .ok acts) :
    processMessage dispatch env store (.ok e) =
      { store := (store.setVal (notificationKey e.event_id) "pending").setVal
          (notificationKey e.event_id) "processed"
        trace := [.storeGet (notificationKey e.event_id) true,
                  .storeSet (notificationKey e.event_id) (86400 * 7) "pending"
                    (store.getVal (notificationKey e.event_id)) true,
                  .dispatched e] ++ acts ++
                 [.storeSet (notificationKey e.event_id) (86400 * 7) "processed"
                    (some "pending") true]
        result := .ok ()
        acked := true } := by
  have hg : (store.getVal (notificationKey e.event_id) == some "processed") = false :=
    beq_eq_false_iff_ne.mpr hnew
  simp [processMessage, getNotificationStatus, setNotificationStatus, hconn, hget,
    hset1, hset2, hdisp, hg, getVal_setVal_self]

/-- The fresh-event failure path of `_process_message`: with Redis connected
and writes succeeding, a raising dispatcher leads to a `failed` write and a
re-raised exception (no acknowledgment). -/
theorem processMessage_fresh_err (dispatch : TaskEvent → Except PyError (List Act))
    (env : Env) (store : Store) (e : TaskEvent) (err : PyError)
    (hconn : env.redisConnected = true)
    (hset1 : env.setPendingFails = false) (hset2 : env.setFinalFails = false)
    (hnew : (getNotificationStatus env store e.event_id).1 ≠ some "processed")
    (hdisp : dispatch e = .error err) :
    processMessage dispatch env store (.ok e) =
      { store := (store.setVal (notificationKey e.event_id) "pending").setVal
          (notificationKey e.event_id) "failed"
        trace := (getNotificationStatus env store e.event_id).2 ++
                 [.storeSet (notificationKey e.event_id) (86400 * 7) "pending"
                    (store.getVal (notificationKey e.event_id)) true,
                  .dispatched e,
                  .storeSet (notificationKey e.event_id) (86400 * 7) "failed"
                    (some "pending") true]
        result := .error err
        acked := false } := by
  have hg : ((getNotificationStatus env store e.event_id).1 == some "processed") = false :=
    beq_eq_false_iff_ne.mpr hnew
  simp [processMessage, setNotificationStatus, hconn, hset1, hset2, hdisp, hg,
    getVal_setVal_self]

/-- C1: for an event whose `event_id` already has status `processed` in the
status store (and the dedup read reaches the store), the pipeline returns
right after the dedup read: the trace holds only that read — no handler
invocation and no status-store write — the run returns normally and the
message is acknowledged. -/
theorem dedup_processed_skips (dispatch : TaskEvent → Except PyError (List Act))
    (env : Env) (store : Store) (e : TaskEvent)
    (hconn : env.redisConnected = true) (hget : env.getFails = false)
    (hstatus : store.getVal (notificationKey e.event_id) = some "processed") :
    processMessage dispatch env store (.ok e) =
      { store := store
        trace := [.storeGet (notificationKey e.event_id) true]
        result := .ok ()
        acked := true } := by
  simp [processMessage, getNotificationStatus, hconn, hget, hstatus]

/-- Witness for C1 at the spec's sample event redelivered after success. -/
theorem dedup_processed_skips_witness :
    processMessage (fun _ => .ok []) envOk
        [(notificationKey "E1", "processed")] (.ok sampleEvent) =
      { store := [(notificationKey "E1", "processed")]
        trace := [.storeGet (notificationKey "E1") true]
        result := .ok ()
        acked := true } :=
  dedup_processed_skips (fun _ => .ok []) envOk
    [(notificationKey "E1", "processed")] sampleEvent rfl rfl (by decide)

/-- C2: if the dispatcher raises for a decoded event (and the status store
accepts writes), the pipeline writes `failed` for that `event_id` and
re-raises the exception, so the message is not acknowledged. -/
theorem dispatch_failure_marks_failed (dispatch : TaskEvent → Except PyError (List Act))
    (env : Env) (store : Store) (e : TaskEvent) (err : PyError)
    (hconn : env.redisConnected = true)
    (hset1 : env.setPendingFails = false) (hset2 : env.setFinalFails = false)
    (hnew : (getNotificationStatus env store e.event_id).1 ≠ some "processed")
    (hdisp : dispatch e = .error err) :
    (processMessage dispatch env store (.ok e)).result = .error err ∧
    (processMessage dispatch env store (.ok e)).acked = false ∧
    (processMessage dispatch env store (.ok e)).store.getVal
      (notificationKey e.event_id) = some "failed" ∧
    Act.storeSet (notificationKey e.event_id) (86400 * 7) "failed" (some "pending") true ∈
      (processMessage dispatch env store (.ok e)).trace := by
  rw [processMessage_fresh_err dispatch env store e err hconn hset1 hset2 hnew hdisp]
  refine ⟨rfl, rfl, getVal_setVal_self _ _ _, ?_⟩
  simp

/-- Witness for C2: a failing handler on the sample event against an empty
store. -/
theorem dispatch_failure_marks_failed_witness :
    (processMessage failingDispatch envOk [] (.ok sampleEvent)).result =
        .error (.handlerError "boom") ∧
    (processMessage failingDispatch envOk [] (.ok sampleEvent)).acked = false ∧
    (processMessage failingDispatch envOk [] (.ok sampleEvent)).store.getVal
      (notificationKey sampleEvent.event_id) = some "failed" ∧
    Act.storeSet (notificationKey sampleEvent.event_id) (86400 * 7) "failed"
        (some "pending") true ∈
      (processMessage failingDispatch envOk [] (.ok sampleEvent)).trace :=
  dispatch_failure_marks_failed failingDispatch envOk [] sampleEvent
    (.handlerError "boom") rfl rfl rfl (by decide) rfl

/-- C3: status-store failures never escape the consumer.  First conjunct: if
the dedup read raises, the event is treated as new and is still dispatched,
and the run completes normally.  Second conjunct: if status writes raise,
the exceptions are swallowed, the store is unchanged, dispatch still
happens and the run completes normally. -/
theorem store_failures_fail_open :
    (∀ (dispatch : TaskEvent → Except PyError (List Act)) (env : Env)
       (store : Store) (e : TaskEvent) (acts : List Act),
       env.redisConnected = true → env.getFails = true → dispatch e = .ok acts →
       Act.dispatched e ∈ (processMessage dispatch env store (.ok e)).trace ∧
       (processMessage dispatch env store (.ok e)).result = .ok () ∧
       (processMessage dispatch env store (.ok e)).acked = true) ∧
    (∀ (dispatch : TaskEvent → Except PyError (List Act)) (env : Env)
       (store : Store) (e : TaskEvent) (acts : List Act),
       env.redisConnected = true →
       env.setPendingFails = true → env.setFinalFails = true →
       env.getFails = false →
       store.getVal (notificationKey e.event_id) ≠ some "processed" →
       dispatch e = .ok acts →
       Act.dispatched e ∈ (processMessage dispatch env store (.ok e)).trace ∧
       (processMessage dispatch env store (.ok e)).result = .ok () ∧
       (processMessage dispatch env store (.ok e)).acked = true ∧
       (processMessage dispatch env store (.ok e)).store = store) := by
  constructor
  · intro dispatch env store e acts hconn hget hdisp
    simp [processMessage, getNotificationStatus, setNotificationStatus, hconn,
      hget, hdisp]
  · intro dispatch env store e acts hconn hset1 hset2 hget hnew hdisp
    have hg : (store.getVal (notificationKey e.event_id) == some "processed") = false :=
      beq_eq_false_iff_ne.mpr hnew
    simp [processMessage, getNotificationStatus, setNotificationStatus, hconn,
      hget, hset1, hset2, hdisp, hg]

/-- Witness for C3: both failure modes exercised on the sample event. -/
theorem store_failures_fail_open_witness :
    (Act.dispatched sampleEvent ∈
        (processMessage processNotificationD envGetFails
          [(notificationKey "E1", "processed")] (.ok sampleEvent)).trace ∧
      (processMessage processNotificationD envGetFails
        [(notificationKey "E1", "processed")] (.ok sampleEvent)).result = .ok () ∧
      (processMessage processNotificationD envGetFails
        [(notificationKey "E1", "processed")] (.ok sampleEvent)).acked = true) ∧
    (Act.dispatched sampleEvent ∈
        (processMessage processNotificationD envSetFails [] (.ok sampleEvent)).trace ∧
      (processMessage processNotificationD envSetFails [] (.ok sampleEvent)).result =
        .ok () ∧
      (processMessage processNotificationD envSetFails [] (.ok sampleEvent)).acked =
        true ∧
      (processMessage processNotificationD envSetFails [] (.ok sampleEvent)).store =
        []) :=
  ⟨store_failures_fail_open.1 processNotificationD envGetFails
      [(notificationKey "E1", "processed")] sampleEvent
      [handleTaskCreated sampleEvent] rfl rfl (by decide),
   store_failures_fail_open.2 processNotificationD envSetFails [] sampleEvent
      [handleTaskCreated sampleEvent] rfl rfl rfl rfl (by decide) (by decide)⟩

/-- Success path specialised to the faithful dispatcher, given the handler
found in `handler_map` for the event's type. -/
theorem processMessage_fresh_typed (env : Env) (store : Store) (e : TaskEvent)
    (ty : String) (hd : TaskEvent → Act)
    (hconn : env.redisConnected = true) (hget : env.getFails = false)
    (hset1 : env.setPendingFails = false) (hset2 : env.setFinalFails = false)
    (hnew : store.getVal (notificationKey e.event_id) ≠ some "processed")
    (hfind : List.find? (fun p => p.1 == e.event_type) handlerMap = some (ty, hd)) :
    processMessage processNotificationD env store (.ok e) =
      { store := (store.setVal (notificationKey e.event_id) "pending").setVal
          (notificationKey e.event_id) "processed"
        trace := [.storeGet (notificationKey e.event_id) true,
                  .storeSet (notificationKey e.event_id) (86400 * 7) "pending"
                    (store.getVal (notificationKey e.event_id)) true,
                  .dispatched e,
                  hd e,
                  .storeSet (notificationKey e.event_id) (86400 * 7) "processed"
                    (some "pending") true]
        result := .ok ()
        acked := true } := by
  have hdisp : processNotificationD e = .ok [hd e] := by
    simp [processNotificationD, hfind]
  simpa using processMessage_fresh_ok processNotificationD env store e [hd e]
    hconn hget hset1 hset2 hnew hdisp

/-- C4: for a decoded event not yet marked `processed` (store healthy), one
run performs, in this order: the dedup read, the `pending` write, exactly
one invocation of the handler registered for the event's type with that
event record, the `processed` write — and, the body having returned
normally, the message is acknowledged. -/
theorem fresh_event_pipeline (env : Env) (store : Store) (e : TaskEvent)
    (hconn : env.redisConnected = true) (hget : env.getFails = false)
    (hset1 : env.setPendingFails = false) (hset2 : env.setFinalFails = false)
    (hnew : store.getVal (notificationKey e.event_id) ≠ some "processed")
    (hty : e.event_type ∈ eventTypeValues) :
    ∃ h, List.find? (fun p => p.1 == e.event_type) handlerMap = some h ∧
      processMessage processNotificationD env store (.ok e) =
        { store := (store.setVal (notificationKey e.event_id) "pending").setVal
            (notificationKey e.event_id) "processed"
          trace := [.storeGet (notificationKey e.event_id) true,
                    .storeSet (notificationKey e.event_id) (86400 * 7) "pending"
                      (store.getVal (notificationKey e.event_id)) true,
                    .dispatched e,
                    h.2 e,
                    .storeSet (notificationKey e.event_id) (86400 * 7) "processed"
                      (some "pending") true]
          result := .ok ()
          acked := true } := by
  simp only [eventTypeValues, List.mem_cons, List.not_mem_nil, or_false] at hty
  rcases hty with h1 | h1 | h1 | h1
  · refine ⟨("task.created", handleTaskCreated), ?_, ?_⟩
    · rw [h1]; rfl
    · exact processMessage_fresh_typed env store e _ _ hconn hget hset1 hset2 hnew
        (by rw [h1]; rfl)
  · refine ⟨("task.updated", handleTaskUpdated), ?_, ?_⟩
    · rw [h1]; rfl
    · exact processMessage_fresh_typed env store e _ _ hconn hget hset1 hset2 hnew
        (by rw [h1]; rfl)
  · refine ⟨("task.deleted", handleTaskDeleted), ?_, ?_⟩
    · rw [h1]; rfl
    · exact processMessage_fresh_typed env store e _ _ hconn hget hset1 hset2 hnew
        (by rw [h1]; rfl)
  · refine ⟨("task.status_changed", handleTaskStatusChanged), ?_, ?_⟩
    · rw [h1]; rfl
    · exact processMessage_fresh_typed env store e _ _ hconn hget hset1 hset2 hnew
        (by rw [h1]; rfl)

/-- Witness for C4: the spec's first scenario — sample `task.created` event
against an empty store under a healthy environment. -/
theorem fresh_event_pipeline_witness :
    ∃ h, List.find? (fun p => p.1 == sampleEvent.event_type) handlerMap = some h ∧
      processMessage processNotificationD envOk [] (.ok sampleEvent) =
        { store := (Store.setVal (Store.setVal [] (notificationKey sampleEvent.event_id)
            "pending") (notificationKey sampleEvent.event_id) "processed")
          trace := [.storeGet (notificationKey sampleEvent.event_id) true,
                    .storeSet (notificationKey sampleEvent.event_id) (86400 * 7)
                      "pending" (Store.getVal [] (notificationKey sampleEvent.event_id))
                      true,
                    .dispatched sampleEvent,
                    h.2 sampleEvent,
                    .storeSet (notificationKey sampleEvent.event_id) (86400 * 7)
                      "processed" (some "pending") true]
          result := .ok ()
          acked := true } :=
  fresh_event_pipeline envOk [] sampleEvent rfl rfl rfl rfl (by decide) (by decide)

/-- An action that is not a store write trivially satisfies the write
constraints. -/
theorem allowedWrite_of_not_write (a : Act) (h : a.isStoreWrite = false) :
    a.allowedWrite = true := by
  cases a <;> simp_all [Act.isStoreWrite, Act.allowedWrite]

/-- The faithful dispatcher emits only handler calls or the unknown-type
warning: never a status-store operation. -/
theorem processNotificationD_no_store_ops :
    ∀ (e : TaskEvent) (acts : List Act) (a : Act),
      processNotificationD e = .ok acts → a ∈ acts →
      a.isStoreWrite = false ∧ a.isStoreRead = false := by
  intro e acts a hok ha
  unfold processNotificationD at hok
  rcases hfind : List.find? (fun p => p.1 == e.event_type) handlerMap with _ | p
  · rw [hfind] at hok
    injection hok with hok
    subst hok
    simp only [List.mem_singleton] at ha
    subst ha
    exact ⟨rfl, rfl⟩
  · rw [hfind] at hok
    injection hok with hok
    subst hok
    simp only [List.mem_singleton] at ha
    subst ha
    have hp := List.mem_of_find?_eq_some hfind
    simp only [handlerMap, List.mem_cons, List.not_mem_nil, or_false] at hp
    rcases hp with hp | hp | hp | hp <;> subst hp <;>
      exact ⟨rfl, rfl⟩

/-- C5 counterexample: with the store holding `processed` for `E1` and the
dedup read raising (fail-open), the pipeline's `pending` write succeeds over
the existing `processed` value — an execution of the per-message pipeline
does overwrite an existing `processed` status. -/
theorem processed_overwritten_on_failed_read :
    Act.storeSet (notificationKey "E1") (86400 * 7) "pending"
        (some "processed") true ∈
      (processMessage processNotificationD envGetFails
        [(notificationKey "E1", "processed")] (.ok sampleEvent)).trace ∧
    Act.overwritesProcessed
      (Act.storeSet (notificationKey "E1") (86400 * 7) "pending"
        (some "processed") true) = true := by
  decide

/-- A successful or failed write whose recorded previous value is not
`processed` does not overwrite a `processed` status. -/
theorem overwritesProcessed_false_of (k : String) (ttl : Nat) (v : String)
    (prev : Option String) (b : Bool)
    (h : (prev == some "processed") = false) :
    (Act.storeSet k ttl v prev b).overwritesProcessed = false := by
  cases b <;> cases prev <;> first | rfl | exact h | simpa using h

/-- An action that is not a store write never overwrites `processed`. -/
theorem overwritesProcessed_of_not_write (a : Act) (h : a.isStoreWrite = false) :
    a.overwritesProcessed = false := by
  cases a <;> simp_all [Act.isStoreWrite, Act.overwritesProcessed]

/-- In every run over a decoded event whose dedup read does not raise, no
write — whichever of the two SETEX calls fails or succeeds — lands over a
current value of `processed`. -/
theorem trace_no_processed_overwrite
    (dispatch : TaskEvent → Except PyError (List Act)) (env : Env) (store : Store)
    (e : TaskEvent)
    (hget : env.getFails = false)
    (hdisp : ∀ e' acts a, dispatch e' = .ok acts → a ∈ acts → a.isStoreWrite = false) :
    ∀ a ∈ (processMessage dispatch env store (.ok e)).trace,
      a.overwritesProcessed = false := by
  intro a ha
  rcases hrc : env.redisConnected with _ | _
  · rcases hde : dispatch e with err | acts <;>
      simp [processMessage, getNotificationStatus, setNotificationStatus, hrc,
        hde] at ha
    all_goals
      first
        | (rcases ha with rfl | ha)
        | (rcases ha with rfl)
    all_goals
      first
        | rfl
        | exact overwritesProcessed_of_not_write a (hdisp e acts a hde ha)
  · by_cases hv : store.getVal (notificationKey e.event_id) = some "processed"
    · simp [processMessage, getNotificationStatus, hrc, hget, hv] at ha
      subst ha
      rfl
    · have hg : (store.getVal (notificationKey e.event_id) == some "processed")
          = false := beq_eq_false_iff_ne.mpr hv
      rcases hs1 : env.setPendingFails with _ | _ <;>
        rcases hs2 : env.setFinalFails with _ | _ <;>
        rcases hde : dispatch e with err | acts <;>
        simp [processMessage, getNotificationStatus, setNotificationStatus,
          hrc, hget, hs1, hs2, hde, hg, getVal_setVal_self] at ha
      all_goals
        first
          | (rcases ha with rfl | rfl | rfl | ha | rfl)
          | (rcases ha with rfl | rfl | rfl | rfl)
      all_goals
        first
          | rfl
          | exact overwritesProcessed_false_of _ _ _ _ _ hg
          | exact overwritesProcessed_of_not_write a (hdisp e acts a hde ha)

/-- In every run over a decoded event whose dedup read does not raise and
whose `pending` SETEX does not raise, each successful write follows the
status state machine, whatever the final SETEX does. -/
theorem trace_allowed_writes
    (dispatch : TaskEvent → Except PyError (List Act)) (env : Env) (store : Store)
    (e : TaskEvent)
    (hget : env.getFails = false) (hpf : env.setPendingFails = false)
    (hdisp : ∀ e' acts a, dispatch e' = .ok acts → a ∈ acts → a.isStoreWrite = false) :
    ∀ a ∈ (processMessage dispatch env store (.ok e)).trace,
      a.allowedWrite = true := by
  intro a ha
  rcases hrc : env.redisConnected with _ | _
  · rcases hde : dispatch e with err | acts <;>
      simp [processMessage, getNotificationStatus, setNotificationStatus, hrc,
        hde] at ha
    all_goals
      first
        | (rcases ha with rfl | ha)
        | (rcases ha with rfl)
    all_goals
      first
        | rfl
        | exact allowedWrite_of_not_write a (hdisp e acts a hde ha)
  · by_cases hv : store.getVal (notificationKey e.event_id) = some "processed"
    · simp [processMessage, getNotificationStatus, hrc, hget, hv] at ha
      subst ha
      rfl
    · have hg : (store.getVal (notificationKey e.event_id) == some "processed")
          = false := beq_eq_false_iff_ne.mpr hv
      rcases hsf : env.setFinalFails with _ | _ <;>
        rcases hde : dispatch e with err | acts <;>
        simp [processMessage, getNotificationStatus, setNotificationStatus,
          hrc, hget, hpf, hsf, hde, hg, getVal_setVal_self] at ha
      all_goals
        first
          | (rcases ha with rfl | rfl | rfl | ha | rfl)
          | (rcases ha with rfl | rfl | rfl | rfl)
      all_goals
        first
          | rfl
          | exact allowedWrite_of_not_write a (hdisp e acts a hde ha)
          | (simp [Act.allowedWrite, bne, hg])

/-- C5 amended: in every run whose dedup read does not raise, no status
write — whichever of the two independent SETEX calls raises — overwrites an
existing `processed` value; and when additionally the `pending` SETEX does
not raise, each successful write follows the status state machine —
`pending` is never written over `processed`, and `processed`/`failed` are
only written over `pending`.  (A raising dedup read lets `pending` overwrite
`processed`; a raising, swallowed `pending` SETEX lets `processed` or
`failed` land directly over a non-`processed` value.) -/
theorem status_transitions_amended
    (dispatch : TaskEvent → Except PyError (List Act)) (env : Env) (store : Store)
    (decoded : Except Unit TaskEvent)
    (hget : env.getFails = false)
    (hdisp : ∀ e acts a, dispatch e = .ok acts → a ∈ acts → a.isStoreWrite = false) :
    (∀ a ∈ (processMessage dispatch env store decoded).trace,
        a.overwritesProcessed = false) ∧
    (env.setPendingFails = false →
      ∀ a ∈ (processMessage dispatch env store decoded).trace,
        a.allowedWrite = true) := by
  cases decoded with
  | error u =>
    constructor
    · intro a ha
      rcases hrc : env.redisConnected with _ | _ <;>
        simp [processMessage, hrc] at ha
    · intro hpf a ha
      rcases hrc : env.redisConnected with _ | _ <;>
        simp [processMessage, hrc] at ha
  | ok e =>
    exact ⟨trace_no_processed_overwrite dispatch env store e hget hdisp,
      fun hpf => trace_allowed_writes dispatch env store e hget hpf hdisp⟩

/-- When the `pending` SETEX raises (and is swallowed) while the final
SETEX succeeds, `processed` lands directly over an absent key — a real run
of the pipeline that skips the `pending` stage of the state machine, which
is why the state-machine conjunct of the amended C5 assumes the `pending`
write does not raise.  Such a write still overwrites no `processed` value. -/
theorem processed_lands_over_absent_when_pending_write_raises :
    Act.storeSet (notificationKey "E1") (86400 * 7) "processed" none true ∈
      (processMessage processNotificationD envPendingFails []
        (.ok sampleEvent)).trace ∧
    Act.allowedWrite
      (Act.storeSet (notificationKey "E1") (86400 * 7) "processed" none true) =
      false ∧
    Act.overwritesProcessed
      (Act.storeSet (notificationKey "E1") (86400 * 7) "processed" none true) =
      false := by
  decide

/-- Witness for the amended C5: a redelivered `failed` event under a healthy
environment overwrites no `processed` value and makes only allowed
transitions. -/
theorem status_transitions_amended_witness :
    ((processMessage processNotificationD envOk
        [(notificationKey "E1", "failed")] (.ok sampleEvent)).trace.all
      (fun a => !a.overwritesProcessed && a.allowedWrite)) = true := by
  have h := status_transitions_amended processNotificationD envOk
    [(notificationKey "E1", "failed")] (.ok sampleEvent) rfl
    (fun e acts a h1 h2 => (processNotificationD_no_store_ops e acts a h1 h2).1)
  refine List.all_eq_true.mpr (fun a ha => ?_)
  have h1 := h.1 a ha
  have h2 := h.2 rfl a ha
  simp [h1, h2]

/-- Whenever the dispatcher returns normally, the run returns normally, the
message is acknowledged, and every trace action either is no `failed` write
or came from the dispatcher itself. -/
theorem processMessage_ok_of_dispatch_ok
    (dispatch : TaskEvent → Except PyError (List Act)) (env : Env) (store : Store)
    (e : TaskEvent) (acts : List Act)
    (hdisp : dispatch e = .ok acts) :
    (processMessage dispatch env store (.ok e)).result = .ok () ∧
    (processMessage dispatch env store (.ok e)).acked = true ∧
    ∀ a ∈ (processMessage dispatch env store (.ok e)).trace,
      a.isFailedWrite = false ∨ a ∈ acts := by
  rcases hrc : env.redisConnected with _ | _
  · refine ⟨?_, ?_, ?_⟩ <;>
      simp [processMessage, getNotificationStatus, setNotificationStatus, hrc,
        hdisp, Act.isFailedWrite]
    all_goals
      intro a ha
      first
      | exact Or.inr ha
      | (rcases ha with ha | ha <;>
          first
          | exact Or.inr ha
          | (subst ha; exact Or.inl rfl))
  · rcases hgf : env.getFails with _ | _
    · by_cases hv : store.getVal (notificationKey e.event_id) = some "processed"
      · refine ⟨?_, ?_, ?_⟩ <;>
          simp [processMessage, getNotificationStatus, hrc, hgf, hv,
            Act.isFailedWrite]
      · have hg : (store.getVal (notificationKey e.event_id) == some "processed")
            = false := beq_eq_false_iff_ne.mpr hv
        rcases hsf1 : env.setPendingFails with _ | _ <;>
          rcases hsf2 : env.setFinalFails with _ | _ <;>
          refine ⟨?_, ?_, ?_⟩ <;>
            simp [processMessage, getNotificationStatus, setNotificationStatus,
              hrc, hgf, hsf1, hsf2, hdisp, hg, getVal_setVal_self,
              Act.isFailedWrite]
        all_goals
          intro a ha
          first
          | exact Or.inr ha
          | (rcases ha with ha | ha <;>
              first
              | exact Or.inr ha
              | (subst ha; exact Or.inl rfl))
    · rcases hsf1 : env.setPendingFails with _ | _ <;>
        rcases hsf2 : env.setFinalFails with _ | _ <;>
        refine ⟨?_, ?_, ?_⟩ <;>
          simp [processMessage, getNotificationStatus, setNotificationStatus,
            hrc, hgf, hsf1, hsf2, hdisp, getVal_setVal_self, Act.isFailedWrite]
      all_goals
        intro a ha
        first
        | exact Or.inr ha
        | (rcases ha with ha | ha <;>
            first
            | exact Or.inr ha
            | (subst ha; exact Or.inl rfl))

/-- C6: an event whose type is outside the four registered `EventType`
values is dispatched to no handler: `process_notification` logs a warning
and returns normally, so the run returns normally, no `failed` status is
written, and the message is acknowledged. -/
theorem unknown_event_type_warns_and_acks (env : Env) (store : Store) (e : TaskEvent)
    (hty : e.event_type ∉ eventTypeValues) :
    processNotificationD e = .ok [.warnUnknownType e.event_type] ∧
    (processMessage processNotificationD env store (.ok e)).result = .ok () ∧
    (processMessage processNotificationD env store (.ok e)).acked = true ∧
    ∀ a ∈ (processMessage processNotificationD env store (.ok e)).trace,
      a.isFailedWrite = false := by
  simp only [eventTypeValues, List.mem_cons, List.not_mem_nil, or_false,
    not_or] at hty
  obtain ⟨h1, h2, h3, h4⟩ := hty
  have hfind : List.find? (fun p => p.1 == e.event_type) handlerMap = none := by
    rw [List.find?_eq_none]
    intro x hx
    simp only [handlerMap, List.mem_cons, List.not_mem_nil, or_false] at hx
    rcases hx with rfl | rfl | rfl | rfl <;>
      simp only [beq_iff_eq] <;>
      exact fun hh => by simp_all
  have hdisp : processNotificationD e = .ok [.warnUnknownType e.event_type] := by
    simp [processNotificationD, hfind]
  obtain ⟨hres, hack, htr⟩ :=
    processMessage_ok_of_dispatch_ok processNotificationD env store e
      [.warnUnknownType e.event_type] hdisp
  refine ⟨hdisp, hres, hack, ?_⟩
  intro a ha
  rcases htr a ha with h | h
  · exact h
  · simp only [List.mem_singleton] at h
    subst h
    rfl

/-- Witness for C6: an event of the unregistered type `task.archived`. -/
theorem unknown_event_type_warns_and_acks_witness :
    processNotificationD
        { sampleEvent with event_type := "task.archived" } =
      .ok [.warnUnknownType "task.archived"] ∧
    (processMessage processNotificationD envOk []
      (.ok { sampleEvent with event_type := "task.archived" })).result = .ok () ∧
    (processMessage processNotificationD envOk []
      (.ok { sampleEvent with event_type := "task.archived" })).acked = true ∧
    ∀ a ∈ (processMessage processNotificationD envOk []
        (.ok { sampleEvent with event_type := "task.archived" })).trace,
      a.isFailedWrite = false :=
  unknown_event_type_warns_and_acks envOk []
    { sampleEvent with event_type := "task.archived" } (by decide)

/-- An action that is neither a store write nor a store read satisfies both
well-formedness predicates trivially. -/
theorem wellFormed_of_not_store_op (k : String) (a : Act)
    (hw : a.isStoreWrite = false) (hr : a.isStoreRead = false) :
    a.writeWellFormed k = true ∧ a.readWellFormed k = true := by
  cases a <;> simp_all [Act.isStoreWrite, Act.isStoreRead, Act.writeWellFormed,
    Act.readWellFormed]

/-- C7: every status-store operation of a pipeline run over a decoded event
uses the key `notification:` + `event_id`; every write carries TTL 604800
seconds (the source's `86400 * 7`) and one of the values `pending`,
`processed`, `failed` (hypothesis: the dispatcher itself performs no store
operation, true of the faithful dispatcher). -/
theorem store_ops_key_ttl_value (dispatch : TaskEvent → Except PyError (List Act))
    (env : Env) (store : Store) (e : TaskEvent)
    (hdisp : ∀ (e' : TaskEvent) (acts : List Act) (a : Act),
        dispatch e' = .ok acts → a ∈ acts →
        a.isStoreWrite = false ∧ a.isStoreRead = false) :
    ∀ a ∈ (processMessage dispatch env store (.ok e)).trace,
      a.writeWellFormed (notificationKey e.event_id) = true ∧
      a.readWellFormed (notificationKey e.event_id) = true := by
  intro a ha
  rcases hrc : env.redisConnected with _ | _
  · rcases hde : dispatch e with err | acts <;>
      simp [processMessage, getNotificationStatus, setNotificationStatus, hrc,
        hde] at ha
    all_goals
      first
        | (rcases ha with rfl | ha)
        | (rcases ha with rfl)
    all_goals
      first
        | exact ⟨rfl, rfl⟩
        | exact ⟨rfl, by simp [Act.readWellFormed]⟩
        | exact ⟨by simp [Act.writeWellFormed], rfl⟩
        | exact wellFormed_of_not_store_op _ a (hdisp e acts a hde ha).1
            (hdisp e acts a hde ha).2
  · rcases hgf : env.getFails with _ | _
    · by_cases hv : store.getVal (notificationKey e.event_id) = some "processed"
      · simp [processMessage, getNotificationStatus, hrc, hgf, hv] at ha
        subst ha
        exact ⟨rfl, by simp [Act.readWellFormed]⟩
      · have hg : (store.getVal (notificationKey e.event_id) == some "processed")
            = false := beq_eq_false_iff_ne.mpr hv
        rcases hsf1 : env.setPendingFails with _ | _ <;>
          rcases hsf2 : env.setFinalFails with _ | _ <;>
          rcases hde : dispatch e with err | acts <;>
          simp [processMessage, getNotificationStatus, setNotificationStatus,
            hrc, hgf, hsf1, hsf2, hde, hg, getVal_setVal_self] at ha
        all_goals
          first
            | (rcases ha with rfl | rfl | rfl | ha | rfl)
            | (rcases ha with rfl | rfl | rfl | rfl)
        all_goals
          first
            | exact ⟨rfl, rfl⟩
            | exact ⟨rfl, by simp [Act.readWellFormed]⟩
            | exact ⟨by simp [Act.writeWellFormed], rfl⟩
            | exact wellFormed_of_not_store_op _ a (hdisp e acts a hde ha).1
                (hdisp e acts a hde ha).2
    · rcases hsf1 : env.setPendingFails with _ | _ <;>
        rcases hsf2 : env.setFinalFails with _ | _ <;>
        rcases hde : dispatch e with err | acts <;>
        simp [processMessage, getNotificationStatus, setNotificationStatus,
          hrc, hgf, hsf1, hsf2, hde, getVal_setVal_self] at ha
      all_goals
        first
          | (rcases ha with rfl | rfl | rfl | ha | rfl)
          | (rcases ha with rfl | rfl | rfl | rfl)
      all_goals
        first
          | exact ⟨rfl, rfl⟩
          | exact ⟨rfl, by simp [Act.readWellFormed]⟩
          | exact ⟨by simp [Act.writeWellFormed], rfl⟩
          | exact wellFormed_of_not_store_op _ a (hdisp e acts a hde ha).1
              (hdisp e acts a hde ha).2

/-- Witness for C7: the healthy fresh-event run on the sample event. -/
theorem store_ops_key_ttl_value_witness :
    ((processMessage processNotificationD envOk [] (.ok sampleEvent)).trace.all
      (fun a => a.writeWellFormed (notificationKey sampleEvent.event_id) &&
        a.readWellFormed (notificationKey sampleEvent.event_id))) = true := by
  have h := store_ops_key_ttl_value processNotificationD envOk [] sampleEvent
    processNotificationD_no_store_ops
  refine List.all_eq_true.mpr (fun a ha => ?_)
  have h2 := h a ha
  simp [h2.1, h2.2]

/-- C8: for a `task.status_changed` event the dispatcher routes to
`_handle_task_status_changed` and returns normally; the handler reads
`old_status` and `new_status` from `data` via `dict.get`, substituting the
literal `"unknown"` for each key that is absent — absence never raises. -/
theorem status_changed_defaults (e : TaskEvent)
    (hty : e.event_type = "task.status_changed") :
    processNotificationD e = .ok [handleTaskStatusChanged e] ∧
    handleTaskStatusChanged e =
      .handlerCall "_handle_task_status_changed"
        [dictGet e.data "title" "N/A",
         dictGet e.data "old_status" "unknown",
         dictGet e.data "new_status" "unknown"] e ∧
    (List.find? (fun p => p.1 == "old_status") e.data = none →
        dictGet e.data "old_status" "unknown" = "unknown") ∧
    (List.find? (fun p => p.1 == "new_status") e.data = none →
        dictGet e.data "new_status" "unknown" = "unknown") ∧
    (∀ p : String × String, List.find? (fun q => q.1 == "old_status") e.data = some p →
        dictGet e.data "old_status" "unknown" = p.2) ∧
    (∀ p : String × String, List.find? (fun q => q.1 == "new_status") e.data = some p →
        dictGet e.data "new_status" "unknown" = p.2) := by
  have hfind : List.find? (fun p => p.1 == e.event_type) handlerMap =
      some ("task.status_changed", handleTaskStatusChanged) := by
    rw [hty]; rfl
  refine ⟨by simp [processNotificationD, hfind], rfl, ?_, ?_, ?_, ?_⟩
  · intro h; simp [dictGet, h]
  · intro h; simp [dictGet, h]
  · intro p h; simp [dictGet, h]
  · intro p h; simp [dictGet, h]

/-- Witness for C8: a status-changed event whose `data` lacks both keys. -/
theorem status_changed_defaults_witness :
    processNotificationD
        { sampleEvent with event_type := "task.status_changed" } =
      .ok [handleTaskStatusChanged
        { sampleEvent with event_type := "task.status_changed" }] ∧
    handleTaskStatusChanged
        { sampleEvent with event_type := "task.status_changed" } =
      .handlerCall "_handle_task_status_changed" ["Buy milk", "unknown", "unknown"]
        { sampleEvent with event_type := "task.status_changed" } := by
  have h := status_changed_defaults
    { sampleEvent with event_type := "task.status_changed" } rfl
  exact ⟨h.1, by rw [h.2.1]; rfl⟩

/-- C9 counterexample: with all four handles live, an error raised by the
queue-cancel step propagates out of `stop` and none of the three close
steps is attempted — contradicting "each later step is attempted even if an
earlier step raises". -/
theorem stop_skips_later_steps_on_error :
    consumerStop
        { hasQueue := true, hasChannel := true, hasConnection := true,
          hasRedis := true, cancelRaises := true, channelCloseRaises := false,
          connectionCloseRaises := false, redisCloseRaises := false } =
      ([.cancelQueue], .error ()) ∧
    StopStep.closeChannel ∉
      (consumerStop
        { hasQueue := true, hasChannel := true, hasConnection := true,
          hasRedis := true, cancelRaises := true, channelCloseRaises := false,
          connectionCloseRaises := false, redisCloseRaises := false }).1 ∧
    StopStep.closeRedis ∉
      (consumerStop
        { hasQueue := true, hasChannel := true, hasConnection := true,
          hasRedis := true, cancelRaises := true, channelCloseRaises := false,
          connectionCloseRaises := false, redisCloseRaises := false }).1 := by
  decide

/-- C9 amended: with all four handles live, `stop` attempts the steps in
reverse-acquisition order — all four when no step raises — but an error in
a step propagates immediately and the remaining steps are not attempted
(shown for an error in the first and in the second step). -/
theorem stop_order_amended (env : StopEnv)
    (hq : env.hasQueue = true) (hch : env.hasChannel = true)
    (hco : env.hasConnection = true) (hr : env.hasRedis = true) :
    (env.cancelRaises = false → env.channelCloseRaises = false →
      env.connectionCloseRaises = false → env.redisCloseRaises = false →
      consumerStop env =
        ([.cancelQueue, .closeChannel, .closeConnection, .closeRedis], .ok ())) ∧
    (env.cancelRaises = true →
      consumerStop env = ([.cancelQueue], .error ())) ∧
    (env.cancelRaises = false → env.channelCloseRaises = true →
      consumerStop env = ([.cancelQueue, .closeChannel], .error ())) := by
  refine ⟨?_, ?_, ?_⟩
  · intro h1 h2 h3 h4
    simp [consumerStop, stopStep, hq, hch, hco, hr, h1, h2, h3, h4]
  · intro h1
    simp [consumerStop, stopStep, hq, h1]
  · intro h1 h2
    simp [consumerStop, stopStep, hq, hch, h1, h2]

/-- Witness for the amended C9: a clean shutdown attempts all four steps in
order. -/
theorem stop_order_amended_witness :
    consumerStop
        { hasQueue := true, hasChannel := true, hasConnection := true,
          hasRedis := true, cancelRaises := false, channelCloseRaises := false,
          connectionCloseRaises := false, redisCloseRaises := false } =
      ([.cancelQueue, .closeChannel, .closeConnection, .closeRedis], .ok ()) :=
  (stop_order_amended
    { hasQueue := true, hasChannel := true, hasConnection := true,
      hasRedis := true, cancelRaises := false, channelCloseRaises := false,
      connectionCloseRaises := false, redisCloseRaises := false }
    rfl rfl rfl rfl).1 rfl rfl rfl rfl

/-- C10: when the raw payload fails to decode there is no `event_id`, so the
pipeline writes nothing to the status store (empty trace, store unchanged),
an exception propagates and the message is not acknowledged.  The `except`
block's `if self.redis_client and event:` references the unbound local
`event`: with a live Redis client the escaping exception is the
`UnboundLocalError` itself; without one, short-circuiting re-raises the
original decode error. -/
theorem decode_failure_no_writes_no_ack
    (dispatch : TaskEvent → Except PyError (List Act)) (env : Env) (store : Store) :
    (processMessage dispatch env store (.error ())).store = store ∧
    (processMessage dispatch env store (.error ())).trace = [] ∧
    (processMessage dispatch env store (.error ())).acked = false ∧
    (env.redisConnected = true →
      (processMessage dispatch env store (.error ())).result =
        .error .unboundLocalError) ∧
    (env.redisConnected = false →
      (processMessage dispatch env store (.error ())).result =
        .error .decodeError) := by
  rcases hrc : env.redisConnected with _ | _ <;>
    simp [processMessage, hrc]

/-- Witness for C10: an undecodable message with a live Redis client. -/
theorem decode_failure_no_writes_no_ack_witness :
    (processMessage processNotificationD envOk [] (.error ())).store = [] ∧
    (processMessage processNotificationD envOk [] (.error ())).trace = [] ∧
    (processMessage processNotificationD envOk [] (.error ())).acked = false ∧
    (processMessage processNotificationD envOk [] (.error ())).result =
      .error .unboundLocalError :=
  ⟨(decode_failure_no_writes_no_ack processNotificationD envOk []).1,
   (decode_failure_no_writes_no_ack processNotificationD envOk []).2.1,
   (decode_failure_no_writes_no_ack processNotificationD envOk []).2.2.1,
   (decode_failure_no_writes_no_ack processNotificationD envOk []).2.2.2.1 rfl⟩
